import Mathlib

/-!
Verification development for the time-card sign-off automation system.

Part 1 embeds the signup frontend (src/frontend/app/signup/page.tsx).
Part 2 models the automation engine (Batch Runner, Orchestrator, Page
Controllers, Result Reporter) from the specification, since the engine's
source is not part of the available tree.
-/

namespace Signup

/-- The JS String.prototype.trim of the source, embedded structurally:
strip whitespace from both ends of the character list. -/
def jsTrim (s : String) : String :=
  ⟨((s.data.dropWhile Char.isWhitespace).reverse.dropWhile Char.isWhitespace).reverse⟩

/-- The four text fields of the signup form (page.tsx lines 11-16). -/
structure FormData where
  name : String
  email : String
  username : String
  employee_id : String
deriving DecidableEq, Repr

/-- The request payload built by the submit handler (page.tsx lines 62-68);
mirrors the SignupRequest type from the api module. -/
structure SignupRequest where
  token : String
  name : String
  email : String
  username : Option String
  employee_id : Option String
deriving DecidableEq, Repr

/-- The SignupRequest literal of page.tsx lines 62-68: name and email are
trimmed; username and employee_id use the JS `trim() || null` idiom, which
yields null exactly when the trimmed string is empty. -/
def signupData (token : String) (fd : FormData) : SignupRequest :=
  { token := token
    name := jsTrim fd.name
    email := jsTrim fd.email
    username := if jsTrim fd.username = "" then none else some (jsTrim fd.username)
    employee_id := if jsTrim fd.employee_id = "" then none else some (jsTrim fd.employee_id) }

/-- What one call of handleSubmit does after the synchronous prologue:
either it sets an error message and returns, or it calls submitSignup with
the given request. -/
inductive SubmitAction where
  | setError (msg : String)
  | submit (req : SignupRequest)
deriving DecidableEq, Repr

/-- The control flow of handleSubmit (page.tsx lines 50-92) up to the call
of submitSignup: the JS falsy guard on the token (line 56 rejects both a
null token and the empty token of a bare token= query), request
construction, then the client-side validations of name and email. -/
def handleSubmit (token : Option String) (fd : FormData) : SubmitAction :=
  match token with
  | none => .setError "Invalid token"
  | some t =>
    if t = "" then .setError "Invalid token"
    else
      let req := signupData t fd
      if req.name = "" then .setError "Name is required"
      else if req.email = "" then .setError "Email is required"
      else .submit req

/-- Result of the validateMagicLink API call (page.tsx line 31). -/
structure Validation where
  valid : Bool
  error : Option String
  email : Option String
deriving DecidableEq, Repr

/-- The component state touched by the token-validation effect and read by
the render function: loading/validated flags, error and success messages,
and the email field prefilled into the form. -/
structure ComponentState where
  loading : Bool
  error : Option String
  success : Option String
  validated : Bool
  formEmail : String
deriving DecidableEq, Repr

/-- Initial component state (page.tsx lines 11-21): loading is true, no
error or success message, not validated, empty form. -/
def initState : ComponentState :=
  { loading := true, error := none, success := none, validated := false, formEmail := "" }

/-- The validateToken effect (page.tsx lines 23-48), with the API call
abstracted as a function from the token to its Validation result. The JS
falsy guard of line 25 takes the no-token branch for both a null token
and the empty token, without calling the API. -/
def validateToken (token : Option String) (api : String → Validation)
    (s : ComponentState) : ComponentState :=
  match token with
  | none =>
    { s with error := some "No token provided. Please use a valid magic link.", loading := false }
  | some t =>
    if t = "" then
      { s with error := some "No token provided. Please use a valid magic link.", loading := false }
    else
    let validation := api t
    if validation.valid = false then
      { s with error := some (validation.error.getD "Invalid or expired magic link"),
               loading := false }
    else
      let s1 := match validation.email with
        | some e => { s with formEmail := e }
        | none => s
      { s1 with validated := true, loading := false }

/-- The four views SignupForm can render. -/
inductive View where
  | loadingView
  | invalidLink
  | successView
  | form
deriving DecidableEq, Repr

/-- The render branches of SignupForm (page.tsx lines 99-241): the loading
spinner, then the Invalid Link card when not validated or an error is set,
then the success card, otherwise the form. -/
def render (s : ComponentState) : View :=
  if s.loading then .loadingView
  else if s.validated = false ∨ s.error.isSome then .invalidLink
  else if s.success.isSome then .successView
  else .form

end Signup

namespace Engine

/-- Modelled from the spec: the automation engine source (Batch Runner,
Orchestrator, Session Driver, Page Controllers, Result Reporter) is not in
the available tree, only its README and deployment files are; the model
below follows sections 3-5 and 7 of the spec. Account: identity plus
portal credentials, immutable during a run. -/
structure Account where
  name : String
  username : String
  credentialRef : String
deriving DecidableEq, Repr

/-- Modelled from the spec: PageState, the five named screens of the fixed
workflow; lives only for one Orchestrator run. -/
inductive PageState where
  | LoggedOut
  | Dashboard
  | EmployeeSelected
  | ConfirmationPending
  | Confirmed
deriving DecidableEq, Repr, Fintype

/-- Modelled from the spec: the successor of each page in the fixed
sequence LoggedOut, Dashboard, EmployeeSelected, ConfirmationPending,
Confirmed; none after the terminal page. -/
def next : PageState → Option PageState
  | .LoggedOut => some .Dashboard
  | .Dashboard => some .EmployeeSelected
  | .EmployeeSelected => some .ConfirmationPending
  | .ConfirmationPending => some .Confirmed
  | .Confirmed => none

/-- Modelled from the spec: the unique page from which each page is
entered; the initial page has no predecessor. -/
def prev : PageState → Option PageState
  | .LoggedOut => none
  | .Dashboard => some .LoggedOut
  | .EmployeeSelected => some .Dashboard
  | .ConfirmationPending => some .EmployeeSelected
  | .Confirmed => some .ConfirmationPending

/-- Modelled from the spec: terminal status of one SignOffOutcome. -/
inductive Status where
  | Success
  | Failed
  | Skipped
deriving DecidableEq, Repr

/-- Modelled from the spec: per-account result record. The timestamp and
diagnostic-artifact fields are real-time and filesystem data and are
abstracted away; the retry counter is the explicit attempt counter the
spec requires of the retry loop. -/
structure SignOffOutcome where
  account : Account
  status : Status
  reason : Option String
  retries : Nat
deriving DecidableEq, Repr

/-- Modelled from the spec: RunSummary, the ordered outcome sequence plus
aggregate counts (run-level timestamps are real-time data, abstracted). -/
structure RunSummary where
  outcomes : List SignOffOutcome
  succeeded : Nat
  failed : Nat
  skipped : Nat
deriving DecidableEq, Repr

/-- Modelled from the spec: the classified result of one portal action
attempt by a page controller — success, retryable transient UI failure,
business-rule rejection with its reason, or an unclassified crash. -/
inductive ActionResult where
  | ok
  | transient
  | reject (reason : String)
  | crash
deriving DecidableEq, Repr

/-- Modelled from the spec: the fixed retry bound for TransientUIFailure
(3 attempts). -/
def maxRetries : Nat := 3

/-- Result of driving one page with retries: success or failure, with the
number of retries performed at that page. -/
inductive StepResult where
  | ok (retries : Nat)
  | fail (reason : String) (retries : Nat)
deriving DecidableEq, Repr

/-- Modelled from the spec: the Orchestrator retry loop at one page. A
driver answer of ok succeeds; a rejection short-circuits with its reason;
a crash is captured as InternalError; a transient failure is retried at
the same page with the attempt counter advanced, until the remaining
retry budget is exhausted, which converts to the
TransientUIFailure-exhausted failure. -/
def tryStep (drv : PageState → Nat → ActionResult) (s : PageState) :
    Nat → Nat → StepResult
  | attempt, 0 =>
    match drv s attempt with
    | .ok => .ok attempt
    | .reject r => .fail r attempt
    | .crash => .fail "InternalError" attempt
    | .transient => .fail "TransientUIFailure-exhausted" attempt
  | attempt, r + 1 =>
    match drv s attempt with
    | .ok => .ok attempt
    | .reject rr => .fail rr attempt
    | .crash => .fail "InternalError" attempt
    | .transient => tryStep drv s (attempt + 1) r

/-- Modelled from the spec: the pages at which the Orchestrator performs
an action, in workflow order (the action at each page effects the
transition to its successor). -/
def pageSequence : List PageState :=
  [.LoggedOut, .Dashboard, .EmployeeSelected, .ConfirmationPending]

/-- Terminal result of one full Orchestrator run, with the cumulative
retry counter. -/
inductive RunResult where
  | success (retries : Nat)
  | failure (reason : String) (retries : Nat)
deriving DecidableEq, Repr

/-- Modelled from the spec: the Orchestrator drives the page sequence in
order, accumulating retries; the first failing page terminates the run
with its classified reason. -/
def runSteps (drv : PageState → Nat → ActionResult) :
    List PageState → Nat → RunResult
  | [], acc => .success acc
  | s :: rest, acc =>
    match tryStep drv s 0 maxRetries with
    | .ok r => runSteps drv rest (acc + r)
    | .fail reason r => .failure reason (acc + r)

/-- Modelled from the spec: browser-session resource state. -/
inductive SessionState where
  | acquired
  | released
deriving DecidableEq, Repr

/-- Modelled from the spec: session acquisition launches a fresh isolated
context. -/
def acquireSession : SessionState := .acquired

/-- Modelled from the spec: teardown closes the context on every exit
path. -/
def releaseSession (_ : SessionState) : SessionState := .released

/-- Modelled from the spec: one Orchestrator run for one Account —
acquire a fresh session, drive the state machine, convert the result to
exactly one SignOffOutcome, and release the session on every path. -/
def runOne (drv : Account → PageState → Nat → ActionResult) (a : Account) :
    SignOffOutcome × SessionState :=
  let session := acquireSession
  let outcome : SignOffOutcome :=
    match runSteps (drv a) pageSequence 0 with
    | .success r => { account := a, status := .Success, reason := none, retries := r }
    | .failure reason r => { account := a, status := .Failed, reason := some reason, retries := r }
  (outcome, releaseSession session)

/-- The outcome of one Orchestrator run. -/
def signOff (drv : Account → PageState → Nat → ActionResult) (a : Account) :
    SignOffOutcome :=
  (runOne drv a).1

/-- Count of outcomes with a given terminal status. -/
def countStatus (st : Status) (os : List SignOffOutcome) : Nat :=
  os.countP fun o => o.status == st

/-- Modelled from the spec: finalize a RunSummary from the assembled
outcome sequence with its aggregate counts. -/
def summarize (os : List SignOffOutcome) : RunSummary :=
  { outcomes := os
    succeeded := countStatus .Success os
    failed := countStatus .Failed os
    skipped := countStatus .Skipped os }

/-- Modelled from the spec: the Batch Runner iterates the ordered roster,
invokes the Orchestrator per account, and finalizes the RunSummary in
roster order. -/
def runBatch (drv : Account → PageState → Nat → ActionResult)
    (roster : List Account) : RunSummary :=
  summarize (roster.map (signOff drv))

/-- Placeholder account used only as the default of list lookups. -/
def dummyAccount : Account := { name := "", username := "", credentialRef := "" }

/-- Placeholder outcome used only as the default of list lookups. -/
def dummyOutcome : SignOffOutcome :=
  { account := dummyAccount, status := .Skipped, reason := none, retries := 0 }

/-- Modelled from the spec: the per-index completions of concurrent
Orchestrator runs, listed in completion order. Runs share no mutable
state, so the outcome of roster index j is a function of that account
alone. -/
def completions (drv : Account → PageState → Nat → ActionResult)
    (roster : List Account) (sched : List Nat) : List (Nat × SignOffOutcome) :=
  sched.map fun j => (j, signOff drv (roster.getD j dummyAccount))

/-- Modelled from the spec: the Batch Runner assembles completed outcomes
into roster-index order, independent of the order in which they arrived. -/
def assemble (n : Nat) (cs : List (Nat × SignOffOutcome)) :
    List (Option SignOffOutcome) :=
  (List.range n).map fun i => (cs.find? fun p => p.1 == i).map Prod.snd

/-- Modelled from the spec: a batch run whose concurrent Orchestrator runs
complete in the order given by sched, assembled in roster order. -/
def runBatchSched (drv : Account → PageState → Nat → ActionResult)
    (roster : List Account) (sched : List Nat) : List (Option SignOffOutcome) :=
  assemble roster.length (completions drv roster sched)

/-- Modelled from the spec: a batch run bounded by a run-level timeout.
Each run has a virtual duration; a run still in flight at the deadline is
cancelled, its session force-released, and it contributes a Failed
outcome with reason Timeout instead of being omitted. -/
def runBatchTimed (drv : Account → PageState → Nat → ActionResult)
    (dur : Account → Nat) (deadline : Nat) (roster : List Account) :
    List (SignOffOutcome × SessionState) :=
  roster.map fun a =>
    if dur a ≤ deadline then runOne drv a
    else ({ account := a, status := .Failed, reason := some "Timeout", retries := 0 },
          releaseSession acquireSession)

/-- The Orchestrator state as seen from outside: a page of the workflow,
or the terminal Failed pseudo-state carrying the classified reason. -/
inductive OState where
  | page (p : PageState)
  | failed (reason : String)
deriving DecidableEq, Repr

/-- Modelled from the spec: the transition relation of one Orchestrator
run — each page advances to its unique successor, and any transition may
instead land in the Failed pseudo-state. -/
inductive Step : OState → OState → Prop where
  | advance {p q : PageState} : next p = some q → Step (.page p) (.page q)
  | abort {p q : PageState} {r : String} : next p = some q → Step (.page p) (.failed r)

/-- The pages actually entered by one Orchestrator run, in order: each
page of the sequence that is reached, and Confirmed when every action
succeeded. -/
def visitStates (drv : PageState → Nat → ActionResult) :
    List PageState → List PageState
  | [] => [.Confirmed]
  | s :: rest =>
    s :: (match tryStep drv s 0 maxRetries with
      | .ok _ => visitStates drv rest
      | .fail _ _ => [])

/-- The pages entered by a full Orchestrator run. -/
def visited (drv : PageState → Nat → ActionResult) : List PageState :=
  visitStates drv pageSequence

/-- The full page chain of a successful run. -/
def chain : List PageState :=
  [.LoggedOut, .Dashboard, .EmployeeSelected, .ConfirmationPending, .Confirmed]

/-- Modelled from the spec: external state the Result Reporter can reach
(the email collaborator log and collaborator availability); report
generation itself must not depend on or change it. -/
structure Env where
  network : Bool
  browser : Bool
  mailLog : List String
deriving DecidableEq, Repr

/-- Modelled from the spec: report generation — a pure function of the
finalized RunSummary rendering aggregate counts plus per-failure detail. -/
def renderReport (s : RunSummary) : String :=
  "succeeded: " ++ toString s.succeeded ++
  ", failed: " ++ toString s.failed ++
  ", skipped: " ++ toString s.skipped ++
  String.join ((s.outcomes.filter fun o => o.status == .Failed).map fun o =>
    "; " ++ o.account.name ++ ": " ++ o.reason.getD "unknown")

/-- Modelled from the spec: the Result Reporter generates the report from
the RunSummary and then forwards it to the email collaborator, the only
effectful part of reporting. -/
def report (s : RunSummary) (env : Env) : String × Env :=
  let rendered := renderReport s
  (rendered, { env with mailLog := env.mailLog ++ [rendered] })

/-- Sample account used to instantiate the theorems below. -/
def accA : Account := { name := "A", username := "ua", credentialRef := "ca" }

/-- Second sample account. -/
def accB : Account := { name := "B", username := "ub", credentialRef := "cb" }

/-- Driver whose every action succeeds at once. -/
def okDrv : Account → PageState → Nat → ActionResult := fun _ _ _ => .ok

/-- Driver that crashes for the first sample account and succeeds for all
others. -/
def crashDrvA : Account → PageState → Nat → ActionResult :=
  fun x _ _ => if x = accA then .crash else .ok

/-- Driver whose portal rejects every action outright. -/
def rejectDrv : Account → PageState → Nat → ActionResult :=
  fun _ _ _ => .reject "already signed off"

/-- Page behaviour that is transient for the first k attempts and then
succeeds. -/
def flakyStep (k : Nat) : PageState → Nat → ActionResult :=
  fun _ n => if n < k then .transient else .ok

/-- Page behaviour that never stops failing transiently. -/
def stuckStep : PageState → Nat → ActionResult := fun _ _ => .transient

/-- Driver transient at the login page for the first k attempts and
successful everywhere else. -/
def flakyLogin (k : Nat) : Account → PageState → Nat → ActionResult :=
  fun _ s n => if s = .LoggedOut ∧ n < k then .transient else .ok

/-- Driver stuck in transient failures at the login page. -/
def stuckLogin : Account → PageState → Nat → ActionResult :=
  fun _ s _ => if s = .LoggedOut then .transient else .ok

/-- Sample per-account virtual durations for the timed batch run. -/
def durDemo : Account → Nat := fun x => if x = accA then 5 else 1

end Engine

namespace Signup

/-- Sample form state used to instantiate the theorems below. -/
def fdDemo : FormData :=
  { name := " Ann Example ", email := " ann@example.com "
    username := "  ", employee_id := " E-7 " }

/-- The request the submit handler builds from the sample form state. -/
def reqDemo : SignupRequest :=
  { token := "tok123", name := "Ann Example", email := "ann@example.com"
    username := none, employee_id := some "E-7" }

/-- Recognizer of the submit branch of the handler. -/
def isSubmit : SubmitAction → Bool
  | .submit _ => true
  | .setError _ => false

/-- Recognizer of the error branch of the handler. -/
def isSetError : SubmitAction → Bool
  | .submit _ => false
  | .setError _ => true

/-- Magic-link validation stub that reports every token invalid. -/
def apiReject : String → Validation :=
  fun _ => { valid := false, error := some "Invalid or expired magic link", email := none }

end Signup

namespace Signup

/-- C8: the submit handler calls submitSignup only when the URL token is
non-null and the trimmed name and trimmed email are both non-empty (the
last three boolean conjuncts); every input violating any of these
conditions takes the error branch, which sets an error message and
returns without calling submitSignup. The first two conjuncts give the
precise guard of the source: the JS falsy token check also rejects an
empty token, so submission happens exactly when the token is truthy and
both trimmed fields are non-empty. -/
theorem c8_submit_guard (token : Option String) (fd : FormData) :
    isSubmit (handleSubmit token fd) =
      (!(token.getD "" == "") && !(jsTrim fd.name == "") && !(jsTrim fd.email == "")) ∧
    isSetError (handleSubmit token fd) =
      !(!(token.getD "" == "") && !(jsTrim fd.name == "") && !(jsTrim fd.email == "")) ∧
    (isSubmit (handleSubmit token fd) && !token.isSome) = false ∧
    (isSubmit (handleSubmit token fd) && (jsTrim fd.name == "")) = false ∧
    (isSubmit (handleSubmit token fd) && (jsTrim fd.email == "")) = false := by
  cases token with
  | none => simp [handleSubmit, isSubmit, isSetError]
  | some t =>
    by_cases ht : t = ""
    · subst ht
      simp [handleSubmit, isSubmit, isSetError]
    · by_cases hn : jsTrim fd.name = "" <;> by_cases he : jsTrim fd.email = "" <;>
        simp [handleSubmit, signupData, isSubmit, isSetError, ht, hn, he]

/-- C9: whenever the handler reaches submitSignup, the request it passes
has name and email equal to the trimmed form values, and username and
employee_id equal to null exactly when their trimmed form value is empty
and to the trimmed value otherwise. -/
theorem c9_request_fields (token : Option String) (fd : FormData)
    (req : SignupRequest)
    (hsub : handleSubmit token fd = SubmitAction.submit req) :
    req.name = jsTrim fd.name ∧
    req.email = jsTrim fd.email ∧
    req.username = (if jsTrim fd.username = "" then none else some (jsTrim fd.username)) ∧
    req.employee_id = (if jsTrim fd.employee_id = "" then none else some (jsTrim fd.employee_id)) := by
  cases token with
  | none => simp [handleSubmit] at hsub
  | some t =>
    by_cases ht : t = ""
    · simp [handleSubmit, ht] at hsub
    · by_cases hn : jsTrim fd.name = "" <;> by_cases he : jsTrim fd.email = "" <;>
        simp [handleSubmit, signupData, ht, hn, he] at hsub
      simp [← hsub, signupData]

/-- Witness for C9 at a concrete form state. -/
theorem c9_request_fields_witness :
    handleSubmit (some "tok123") fdDemo = SubmitAction.submit reqDemo ∧
    (reqDemo.name = jsTrim fdDemo.name ∧
     reqDemo.email = jsTrim fdDemo.email ∧
     reqDemo.username = (if jsTrim fdDemo.username = "" then none else some (jsTrim fdDemo.username)) ∧
     reqDemo.employee_id = (if jsTrim fdDemo.employee_id = "" then none else some (jsTrim fdDemo.employee_id))) :=
  ⟨by decide, c9_request_fields (some "tok123") fdDemo reqDemo (by decide)⟩

/-- C10: when the URL carries no token (the JS falsy check: a null token
or the empty token of a bare token= query), or validateMagicLink reports
the token invalid, the validation effect leaves the validated flag false
and sets an error, and the component renders the Invalid Link view, never
the form. -/
theorem c10_invalid_link_gate (token : Option String) (api : String → Validation)
    (t : String)
    (hbad : token = none ∨ token = some "" ∨
      (token = some t ∧ (api t).valid = false)) :
    (validateToken token api initState).validated = false ∧
    (validateToken token api initState).error.isSome = true ∧
    render (validateToken token api initState) = View.invalidLink := by
  rcases hbad with h | h | ⟨h, hv⟩
  · subst h
    simp [validateToken, render, initState]
  · subst h
    simp [validateToken, render, initState]
  · subst h
    by_cases ht : t = ""
    · subst ht
      simp [validateToken, render, initState]
    · simp [validateToken, render, initState, ht, hv]

/-- Witness for C10 with the empty token of a bare token= query. -/
theorem c10_invalid_link_gate_witness :
    ((some "" : Option String) = none ∨ (some "" : Option String) = some "" ∨
      ((some "" : Option String) = some "x" ∧ (apiReject "x").valid = false)) ∧
    ((validateToken (some "") apiReject initState).validated = false ∧
     (validateToken (some "") apiReject initState).error.isSome = true ∧
     render (validateToken (some "") apiReject initState) = View.invalidLink) :=
  ⟨Or.inr (Or.inl rfl),
   c10_invalid_link_gate (some "") apiReject "x" (Or.inr (Or.inl rfl))⟩

end Signup

namespace Engine

theorem tryStep_of_ok (drv : PageState → Nat → ActionResult) (s : PageState)
    (attempt remaining : Nat) (h : drv s attempt = .ok) :
    tryStep drv s attempt remaining = .ok attempt := by
  cases remaining <;> simp [tryStep, h]

theorem tryStep_of_reject (drv : PageState → Nat → ActionResult) (s : PageState)
    (attempt remaining : Nat) (r : String) (h : drv s attempt = .reject r) :
    tryStep drv s attempt remaining = .fail r attempt := by
  cases remaining <;> simp [tryStep, h]

theorem tryStep_of_crash (drv : PageState → Nat → ActionResult) (s : PageState)
    (attempt remaining : Nat) (h : drv s attempt = .crash) :
    tryStep drv s attempt remaining = .fail "InternalError" attempt := by
  cases remaining <;> simp [tryStep, h]

theorem tryStep_of_transient_zero (drv : PageState → Nat → ActionResult) (s : PageState)
    (attempt : Nat) (h : drv s attempt = .transient) :
    tryStep drv s attempt 0 = .fail "TransientUIFailure-exhausted" attempt := by
  simp [tryStep, h]

theorem tryStep_of_transient_succ (drv : PageState → Nat → ActionResult) (s : PageState)
    (attempt r : Nat) (h : drv s attempt = .transient) :
    tryStep drv s attempt (r + 1) = tryStep drv s (attempt + 1) r := by
  simp [tryStep, h]

theorem tryStep_resolves (drv : PageState → Nat → ActionResult) (s : PageState) :
    ∀ (k attempt remaining : Nat), k ≤ remaining →
      (∀ n, n < k → drv s (attempt + n) = .transient) →
      drv s (attempt + k) = .ok →
      tryStep drv s attempt remaining = .ok (attempt + k) := by
  intro k
  induction k with
  | zero =>
    intro attempt remaining _ _ hok
    simpa using tryStep_of_ok drv s attempt remaining (by simpa using hok)
  | succ k ih =>
    intro attempt remaining hk htr hok
    have h0 : drv s attempt = .transient := by simpa using htr 0 (Nat.succ_pos k)
    obtain ⟨r, rfl⟩ : ∃ r, remaining = r + 1 := ⟨remaining - 1, by omega⟩
    rw [tryStep_of_transient_succ drv s attempt r h0]
    have harith : attempt + 1 + k = attempt + (k + 1) := by omega
    have := ih (attempt + 1) r (by omega)
      (fun n hn => by
        have hh := htr (n + 1) (by omega)
        have : attempt + 1 + n = attempt + (n + 1) := by omega
        rw [this]; exact hh)
      (by rw [harith]; exact hok)
    rw [this, harith]

theorem tryStep_never (drv : PageState → Nat → ActionResult) (s : PageState)
    (h : ∀ n, drv s n = .transient) :
    ∀ remaining attempt,
      tryStep drv s attempt remaining =
        .fail "TransientUIFailure-exhausted" (attempt + remaining) := by
  intro remaining
  induction remaining with
  | zero => intro attempt; simpa using tryStep_of_transient_zero drv s attempt (h attempt)
  | succ r ih =>
    intro attempt
    rw [tryStep_of_transient_succ drv s attempt r (h attempt), ih (attempt + 1)]
    congr 1
    omega

theorem runSteps_cons_ok (drv : PageState → Nat → ActionResult) (s : PageState)
    (rest : List PageState) (acc r : Nat)
    (h : tryStep drv s 0 maxRetries = .ok r) :
    runSteps drv (s :: rest) acc = runSteps drv rest (acc + r) := by
  simp [runSteps, h]

theorem runSteps_cons_fail (drv : PageState → Nat → ActionResult) (s : PageState)
    (rest : List PageState) (acc : Nat) (reason : String) (r : Nat)
    (h : tryStep drv s 0 maxRetries = .fail reason r) :
    runSteps drv (s :: rest) acc = .failure reason (acc + r) := by
  simp [runSteps, h]

theorem signOff_account (drv : Account → PageState → Nat → ActionResult) (a : Account) :
    (signOff drv a).account = a := by
  unfold signOff runOne
  cases runSteps (drv a) pageSequence 0 <;> simp

theorem signOff_congr (drv drv2 : Account → PageState → Nat → ActionResult)
    (a : Account) (h : drv2 a = drv a) : signOff drv2 a = signOff drv a := by
  unfold signOff runOne
  rw [h]

theorem signOff_of_success (drv : Account → PageState → Nat → ActionResult)
    (a : Account) (r : Nat) (h : runSteps (drv a) pageSequence 0 = .success r) :
    signOff drv a = { account := a, status := .Success, reason := none, retries := r } := by
  simp [signOff, runOne, h]

theorem signOff_of_failure (drv : Account → PageState → Nat → ActionResult)
    (a : Account) (reason : String) (r : Nat)
    (h : runSteps (drv a) pageSequence 0 = .failure reason r) :
    signOff drv a = { account := a, status := .Failed, reason := some reason, retries := r } := by
  simp [signOff, runOne, h]

theorem runOne_released (drv : Account → PageState → Nat → ActionResult)
    (a : Account) : (runOne drv a).2 = .released := rfl

theorem find_map_key {β : Type} (f : Nat → β) (i : Nat) :
    ∀ l : List Nat, i ∈ l →
      (l.map fun j => (j, f j)).find? (fun p => p.1 == i) = some (i, f i) := by
  intro l
  induction l with
  | nil => simp
  | cons j tl ih =>
    intro hmem
    by_cases hj : j = i
    · subst hj
      simp [List.find?]
    · have hi : i ∈ tl := by
        rcases List.mem_cons.mp hmem with h | h
        · exact absurd h.symm hj
        · exact h
      rw [List.map_cons, List.find?_cons_of_neg _ (by simp [hj]), ih hi]

end Engine

namespace Engine

/-- C1: for every ordered roster, runBatch yields exactly one outcome per
account, in roster order and with the same length, every outcome
referencing an account of the roster; and assembling the concurrent
completions in any completion order (any permutation of the roster
indices) produces exactly the same outcome sequence. -/
theorem c1_roster_alignment (drv : Account → PageState → Nat → ActionResult)
    (roster : List Account) (sched : List Nat)
    (hperm : sched.Perm (List.range roster.length)) :
    (runBatch drv roster).outcomes.length = roster.length ∧
    (runBatch drv roster).outcomes.map SignOffOutcome.account = roster ∧
    runBatchSched drv roster sched = (runBatch drv roster).outcomes.map Option.some := by
  have houtcomes : (runBatch drv roster).outcomes = roster.map (signOff drv) := rfl
  have hmap : ∀ l : List Account, (l.map (signOff drv)).map SignOffOutcome.account = l := by
    intro l
    induction l with
    | nil => rfl
    | cons x tl ih => simp [signOff_account, ih]
  refine ⟨by simp [houtcomes], by rw [houtcomes]; exact hmap roster, ?_⟩
  have key : ∀ i ∈ List.range roster.length,
      (((completions drv roster sched).find? fun p => p.1 == i).map Prod.snd) =
        some (signOff drv (roster.getD i dummyAccount)) := by
    intro i hi
    have hmem : i ∈ sched := hperm.mem_iff.mpr hi
    rw [show completions drv roster sched =
          sched.map (fun j => (j, signOff drv (roster.getD j dummyAccount))) from rfl,
        find_map_key (fun j => signOff drv (roster.getD j dummyAccount)) i sched hmem]
    rfl
  show (List.range roster.length).map
      (fun i => ((completions drv roster sched).find? fun p => p.1 == i).map Prod.snd) =
    (runBatch drv roster).outcomes.map Option.some
  rw [List.map_congr_left key, houtcomes]
  apply List.ext_getElem
  · simp
  · intro n h1 h2
    have hn : n < roster.length := by simpa using h2
    simp [List.getElem_map, List.getElem_range, List.getElem?_eq_getElem hn]

/-- Witness for C1 on a two-account roster completed in reverse order. -/
theorem c1_roster_alignment_witness :
    ([1, 0] : List Nat).Perm (List.range ([accA, accB] : List Account).length) ∧
    ((runBatch okDrv [accA, accB]).outcomes.length = ([accA, accB] : List Account).length ∧
     (runBatch okDrv [accA, accB]).outcomes.map SignOffOutcome.account = [accA, accB] ∧
     runBatchSched okDrv [accA, accB] [1, 0] =
       (runBatch okDrv [accA, accB]).outcomes.map Option.some) :=
  ⟨by decide, c1_roster_alignment okDrv [accA, accB] [1, 0] (by decide)⟩

end Engine

namespace Engine

/-- C2: per-account errors are contained inside the Orchestrator — a
driver crash is converted at the step level to an InternalError failure,
an account whose very first action crashes still gets a Failed outcome
with reason InternalError, the batch still produces one outcome per
account, and any account whose own behaviour is unchanged receives
exactly the outcome of its own isolated run, no matter what the other
accounts (such as the crashing one) do. -/
theorem c2_error_containment
    (drv drv2 : Account → PageState → Nat → ActionResult) (roster : List Account)
    (a b : Account) (s : PageState) (attempt remaining : Nat)
    (j : Nat) (hj : j < roster.length)
    (hcrash : drv2 a s attempt = ActionResult.crash)
    (hcrash0 : drv2 b .LoggedOut 0 = ActionResult.crash)
    (hagree : drv2 (roster.get ⟨j, hj⟩) = drv (roster.get ⟨j, hj⟩)) :
    tryStep (drv2 a) s attempt remaining = StepResult.fail "InternalError" attempt ∧
    signOff drv2 b =
      { account := b, status := .Failed, reason := some "InternalError", retries := 0 } ∧
    (runBatch drv2 roster).outcomes.length = roster.length ∧
    (runBatch drv2 roster).outcomes.getD j dummyOutcome =
      signOff drv (roster.get ⟨j, hj⟩) := by
  have houtcomes : (runBatch drv2 roster).outcomes = roster.map (signOff drv2) := rfl
  refine ⟨tryStep_of_crash (drv2 a) s attempt remaining hcrash, ?_, by simp [houtcomes], ?_⟩
  · have h1 : tryStep (drv2 b) .LoggedOut 0 maxRetries = .fail "InternalError" 0 :=
      tryStep_of_crash (drv2 b) .LoggedOut 0 maxRetries hcrash0
    have h2 : runSteps (drv2 b) pageSequence 0 = .failure "InternalError" 0 := by
      rw [show pageSequence =
            PageState.LoggedOut ::
              [PageState.Dashboard, .EmployeeSelected, .ConfirmationPending] from rfl,
          runSteps_cons_fail _ _ _ _ _ _ h1]
    exact signOff_of_failure drv2 b "InternalError" 0 h2
  · rw [houtcomes, List.getD_eq_getElem?_getD, List.getElem?_eq_getElem (by simpa using hj)]
    simp only [List.getElem_map, Option.getD_some]
    rw [show roster[j] = roster.get ⟨j, hj⟩ from rfl]
    exact signOff_congr drv drv2 (roster.get ⟨j, hj⟩) hagree

/-- Witness for C2: the driver crashes for the first account; the second
account of the roster still gets its normal successful outcome. -/
theorem c2_error_containment_witness :
    crashDrvA accA .LoggedOut 0 = ActionResult.crash ∧
    crashDrvA accB = okDrv accB ∧
    (tryStep (crashDrvA accA) .LoggedOut 0 3 = StepResult.fail "InternalError" 0 ∧
     signOff crashDrvA accA =
       { account := accA, status := .Failed, reason := some "InternalError", retries := 0 } ∧
     (runBatch crashDrvA [accA, accB]).outcomes.length = ([accA, accB] : List Account).length ∧
     (runBatch crashDrvA [accA, accB]).outcomes.getD 1 dummyOutcome = signOff okDrv accB) :=
  ⟨by decide, by funext p n; exact if_neg (by decide),
   c2_error_containment okDrv crashDrvA [accA, accB] accA accA .LoggedOut 0 3 1 (by decide)
     (by decide) (by decide) (by funext p n; exact if_neg (by decide))⟩

/-- C3: when the portal interaction of an account returns a permanent
rejection at the first attempt of the page it reaches (all earlier pages
having succeeded at once), the Orchestrator produces a Failed outcome
whose reason is the rejection and performs zero retries. -/
theorem c3_permanent_rejection (drv : Account → PageState → Nat → ActionResult)
    (a : Account) (r : String) (k : Nat) (hk : k < pageSequence.length)
    (hok : ∀ j (hj : j < pageSequence.length), j < k →
      drv a (pageSequence.get ⟨j, hj⟩) 0 = ActionResult.ok)
    (hrej : drv a (pageSequence.get ⟨k, hk⟩) 0 = ActionResult.reject r) :
    signOff drv a = { account := a, status := .Failed, reason := some r, retries := 0 } := by
  have e : pageSequence =
      [PageState.LoggedOut, .Dashboard, .EmployeeSelected, .ConfirmationPending] := rfl
  have hfail : runSteps (drv a) pageSequence 0 = .failure r 0 := by
    have hk4 : k < 4 := hk
    interval_cases k
    · have h0 : drv a PageState.LoggedOut 0 = .reject r := hrej
      rw [e, runSteps_cons_fail _ _ _ _ _ _ (tryStep_of_reject _ _ _ _ _ h0)]
    · have h0 : drv a PageState.LoggedOut 0 = .ok := hok 0 (by decide) (by omega)
      have h1 : drv a PageState.Dashboard 0 = .reject r := hrej
      rw [e, runSteps_cons_ok _ _ _ _ _ (tryStep_of_ok _ _ _ _ h0),
          runSteps_cons_fail _ _ _ _ _ _ (tryStep_of_reject _ _ _ _ _ h1)]
    · have h0 : drv a PageState.LoggedOut 0 = .ok := hok 0 (by decide) (by omega)
      have h1 : drv a PageState.Dashboard 0 = .ok := hok 1 (by decide) (by omega)
      have h2 : drv a PageState.EmployeeSelected 0 = .reject r := hrej
      rw [e, runSteps_cons_ok _ _ _ _ _ (tryStep_of_ok _ _ _ _ h0),
          runSteps_cons_ok _ _ _ _ _ (tryStep_of_ok _ _ _ _ h1),
          runSteps_cons_fail _ _ _ _ _ _ (tryStep_of_reject _ _ _ _ _ h2)]
    · have h0 : drv a PageState.LoggedOut 0 = .ok := hok 0 (by decide) (by omega)
      have h1 : drv a PageState.Dashboard 0 = .ok := hok 1 (by decide) (by omega)
      have h2 : drv a PageState.EmployeeSelected 0 = .ok := hok 2 (by decide) (by omega)
      have h3 : drv a PageState.ConfirmationPending 0 = .reject r := hrej
      rw [e, runSteps_cons_ok _ _ _ _ _ (tryStep_of_ok _ _ _ _ h0),
          runSteps_cons_ok _ _ _ _ _ (tryStep_of_ok _ _ _ _ h1),
          runSteps_cons_ok _ _ _ _ _ (tryStep_of_ok _ _ _ _ h2),
          runSteps_cons_fail _ _ _ _ _ _ (tryStep_of_reject _ _ _ _ _ h3)]
  exact signOff_of_failure drv a r 0 hfail

/-- Witness for C3: a portal that rejects the very first action. -/
theorem c3_permanent_rejection_witness :
    rejectDrv accA (pageSequence.get ⟨0, by decide⟩) 0 =
      ActionResult.reject "already signed off" ∧
    signOff rejectDrv accA =
      { account := accA, status := .Failed
        reason := some "already signed off", retries := 0 } :=
  ⟨by decide,
   c3_permanent_rejection rejectDrv accA "already signed off" 0 (by decide)
     (fun j hj hlt => absurd hlt (by omega)) (by decide)⟩

end Engine

namespace Engine

/-- C4: a transient UI failure is retried at the current page only, up to
the configured bound maxRetries: a page whose transient failure resolves
after k attempts (k within the bound) ends in step success with retry
count k; a page that never resolves performs exactly maxRetries retries
and fails with reason TransientUIFailure-exhausted; lifted to a full run,
an account transient only at login and resolving within the bound ends in
a Success outcome with retry count k, and one stuck at login ends in a
Failed outcome with reason TransientUIFailure-exhausted and retry count
exactly maxRetries. -/
theorem c4_transient_retry
    (drv1 drv2 : PageState → Nat → ActionResult)
    (fdrv gdrv : Account → PageState → Nat → ActionResult) (a : Account)
    (s : PageState) (k : Nat) (hk : k ≤ maxRetries)
    (htrans : ∀ n, n < k → drv1 s n = ActionResult.transient)
    (hok : drv1 s k = ActionResult.ok)
    (hnever : ∀ n, drv2 s n = ActionResult.transient)
    (hfirst : ∀ n, n < k → fdrv a .LoggedOut n = ActionResult.transient)
    (hfirstok : fdrv a .LoggedOut k = ActionResult.ok)
    (hrest : ∀ st n, st ≠ PageState.LoggedOut → fdrv a st n = ActionResult.ok)
    (hgnever : ∀ n, gdrv a .LoggedOut n = ActionResult.transient) :
    tryStep drv1 s 0 maxRetries = .ok k ∧
    tryStep drv2 s 0 maxRetries = .fail "TransientUIFailure-exhausted" maxRetries ∧
    signOff fdrv a = { account := a, status := .Success, reason := none, retries := k } ∧
    signOff gdrv a =
      { account := a, status := .Failed
        reason := some "TransientUIFailure-exhausted", retries := maxRetries } := by
  have e : pageSequence =
      PageState.LoggedOut ::
        [PageState.Dashboard, .EmployeeSelected, .ConfirmationPending] := rfl
  refine ⟨?_, ?_, ?_, ?_⟩
  · have := tryStep_resolves drv1 s k 0 maxRetries hk
      (fun n hn => by simpa using htrans n hn) (by simpa using hok)
    simpa using this
  · simpa using tryStep_never drv2 s hnever maxRetries 0
  · have h0 : tryStep (fdrv a) .LoggedOut 0 maxRetries = .ok k := by
      have := tryStep_resolves (fdrv a) .LoggedOut k 0 maxRetries hk
        (fun n hn => by simpa using hfirst n hn) (by simpa using hfirstok)
      simpa using this
    have h1 : tryStep (fdrv a) .Dashboard 0 maxRetries = .ok 0 :=
      tryStep_of_ok _ _ _ _ (hrest .Dashboard 0 (by decide))
    have h2 : tryStep (fdrv a) .EmployeeSelected 0 maxRetries = .ok 0 :=
      tryStep_of_ok _ _ _ _ (hrest .EmployeeSelected 0 (by decide))
    have h3 : tryStep (fdrv a) .ConfirmationPending 0 maxRetries = .ok 0 :=
      tryStep_of_ok _ _ _ _ (hrest .ConfirmationPending 0 (by decide))
    have hrun : runSteps (fdrv a) pageSequence 0 = .success k := by
      rw [e, runSteps_cons_ok _ _ _ _ _ h0, runSteps_cons_ok _ _ _ _ _ h1,
          runSteps_cons_ok _ _ _ _ _ h2, runSteps_cons_ok _ _ _ _ _ h3]
      simp [runSteps]
    exact signOff_of_success fdrv a k hrun
  · have h0 : tryStep (gdrv a) .LoggedOut 0 maxRetries =
        .fail "TransientUIFailure-exhausted" maxRetries := by
      simpa using tryStep_never (gdrv a) .LoggedOut hgnever maxRetries 0
    have hrun : runSteps (gdrv a) pageSequence 0 =
        .failure "TransientUIFailure-exhausted" maxRetries := by
      rw [e, runSteps_cons_fail _ _ _ _ _ _ h0]
      simp
    exact signOff_of_failure gdrv a "TransientUIFailure-exhausted" maxRetries hrun

/-- Witness for C4 with a transient failure resolving after 2 attempts
and one that never resolves. -/
theorem c4_transient_retry_witness :
    2 ≤ maxRetries ∧
    (tryStep (flakyStep 2) .Dashboard 0 maxRetries = .ok 2 ∧
     tryStep stuckStep .Dashboard 0 maxRetries =
       .fail "TransientUIFailure-exhausted" maxRetries ∧
     signOff (flakyLogin 2) accA =
       { account := accA, status := .Success, reason := none, retries := 2 } ∧
     signOff stuckLogin accA =
       { account := accA, status := .Failed
         reason := some "TransientUIFailure-exhausted", retries := maxRetries }) :=
  ⟨by decide,
   c4_transient_retry (flakyStep 2) stuckStep (flakyLogin 2) stuckLogin accA
     .Dashboard 2 (by decide)
     (fun n hn => by simp [flakyStep, hn])
     (by decide)
     (fun n => rfl)
     (fun n hn => by simp [flakyLogin, hn])
     (by decide)
     (fun st n hst => by simp [flakyLogin, hst])
     (fun n => by simp [stuckLogin])⟩

end Engine

namespace Engine

theorem next_inj : ∀ p p' q : PageState, next p = some q → next p' = some q → p = p' := by
  decide

theorem prev_next : ∀ p q : PageState, next p = some q → prev q = some p := by
  decide

theorem visited_chain_take (drv : PageState → Nat → ActionResult) :
    visited drv = chain.take (visited drv).length := by
  unfold visited pageSequence
  rcases h1 : tryStep drv .LoggedOut 0 maxRetries with r1 | ⟨e1, r1⟩
  · rcases h2 : tryStep drv .Dashboard 0 maxRetries with r2 | ⟨e2, r2⟩
    · rcases h3 : tryStep drv .EmployeeSelected 0 maxRetries with r3 | ⟨e3, r3⟩
      · rcases h4 : tryStep drv .ConfirmationPending 0 maxRetries with r4 | ⟨e4, r4⟩
        · simp [visitStates, h1, h2, h3, h4, chain]
        · simp [visitStates, h1, h2, h3, h4, chain]
      · simp [visitStates, h1, h2, h3, chain]
    · simp [visitStates, h1, h2, chain]
  · simp [visitStates, h1, chain]

theorem visited_conf_sel (drv : PageState → Nat → ActionResult)
    (hconf : PageState.ConfirmationPending ∈ visited drv) :
    PageState.EmployeeSelected ∈ visited drv := by
  unfold visited pageSequence at hconf ⊢
  rcases h1 : tryStep drv .LoggedOut 0 maxRetries with r1 | ⟨e1, r1⟩
  · rcases h2 : tryStep drv .Dashboard 0 maxRetries with r2 | ⟨e2, r2⟩
    · rcases h3 : tryStep drv .EmployeeSelected 0 maxRetries with r3 | ⟨e3, r3⟩
      · simp [visitStates, h1, h2, h3]
      · simp [visitStates, h1, h2, h3]
    · simp [visitStates, h1, h2] at hconf
  · simp [visitStates, h1] at hconf

/-- C5: the pages of a run follow the fixed sequence with no transition
skipped — next is exactly the chain LoggedOut, Dashboard,
EmployeeSelected, ConfirmationPending, Confirmed; predecessors in the
step relation are unique, so any non-Failed state entered in a step comes
from its single predecessor; ConfirmationPending and Confirmed are
entered only from EmployeeSelected and ConfirmationPending respectively;
and every run visits a prefix of the chain, so ConfirmationPending is
visited only if employee selection succeeded first. -/
theorem c5_state_machine (drv : PageState → Nat → ActionResult)
    (s : OState) (q p p' : PageState)
    (hstep : Step s (OState.page q))
    (h1 : next p = some q) (h2 : next p' = some q)
    (hconf : PageState.ConfirmationPending ∈ visited drv) :
    next .LoggedOut = some .Dashboard ∧
    next .Dashboard = some .EmployeeSelected ∧
    next .EmployeeSelected = some .ConfirmationPending ∧
    next .ConfirmationPending = some .Confirmed ∧
    next .Confirmed = none ∧
    p = p' ∧
    (prev q).map OState.page = some s ∧
    prev .ConfirmationPending = some .EmployeeSelected ∧
    prev .Confirmed = some .ConfirmationPending ∧
    visited drv = chain.take (visited drv).length ∧
    PageState.EmployeeSelected ∈ visited drv := by
  refine ⟨rfl, rfl, rfl, rfl, rfl, next_inj p p' q h1 h2, ?_, rfl, rfl,
    visited_chain_take drv, visited_conf_sel drv hconf⟩
  cases hstep with
  | advance h =>
    rename_i p0
    rw [prev_next p0 q h]
    rfl

/-- Witness for C5 at the employee-selection transition of an all-success
run. -/
theorem c5_state_machine_witness :
    next .LoggedOut = some .Dashboard ∧
    next .Dashboard = some .EmployeeSelected ∧
    next .EmployeeSelected = some .ConfirmationPending ∧
    next .ConfirmationPending = some .Confirmed ∧
    next .Confirmed = none ∧
    PageState.EmployeeSelected = PageState.EmployeeSelected ∧
    (prev .ConfirmationPending).map OState.page =
      some (OState.page .EmployeeSelected) ∧
    prev .ConfirmationPending = some .EmployeeSelected ∧
    prev .Confirmed = some .ConfirmationPending ∧
    visited (okDrv accA) = chain.take (visited (okDrv accA)).length ∧
    PageState.EmployeeSelected ∈ visited (okDrv accA) :=
  c5_state_machine (okDrv accA) (OState.page .EmployeeSelected) .ConfirmationPending
    .EmployeeSelected .EmployeeSelected (Step.advance rfl) rfl rfl (by decide)

end Engine

namespace Engine

/-- C6: with a run-level timeout, an account still in flight at the
deadline contributes a Failed outcome with reason Timeout at its roster
position — never omitted, the outcome list keeps the roster length — and
its session is force-released; an account that finished before the
deadline keeps exactly its normal run result. -/
theorem c6_timeout_cancellation (drv : Account → PageState → Nat → ActionResult)
    (dur : Account → Nat) (deadline : Nat) (roster : List Account)
    (i j : Nat) (hi : i < roster.length) (hj : j < roster.length)
    (hlate : deadline < dur (roster.get ⟨i, hi⟩))
    (hfin : dur (roster.get ⟨j, hj⟩) ≤ deadline) :
    (runBatchTimed drv dur deadline roster).length = roster.length ∧
    (runBatchTimed drv dur deadline roster).getD i (dummyOutcome, SessionState.acquired) =
      ({ account := roster.get ⟨i, hi⟩, status := .Failed
         reason := some "Timeout", retries := 0 }, SessionState.released) ∧
    ((runBatchTimed drv dur deadline roster).getD i
        (dummyOutcome, SessionState.acquired)).2 = SessionState.released ∧
    (runBatchTimed drv dur deadline roster).getD j (dummyOutcome, SessionState.acquired) =
      runOne drv (roster.get ⟨j, hj⟩) := by
  have hlen : (runBatchTimed drv dur deadline roster).length = roster.length := by
    simp [runBatchTimed]
  have hgeti : (runBatchTimed drv dur deadline roster).getD i
      (dummyOutcome, SessionState.acquired) =
      ({ account := roster.get ⟨i, hi⟩, status := .Failed
         reason := some "Timeout", retries := 0 }, SessionState.released) := by
    rw [List.getD_eq_getElem?_getD,
        List.getElem?_eq_getElem (by simpa [runBatchTimed] using hi)]
    simp only [runBatchTimed, List.getElem_map, Option.getD_some]
    have hlate2 : ¬ dur roster[i] ≤ deadline := Nat.not_le.mpr hlate
    rw [if_neg hlate2]
    rfl
  have hgetj : (runBatchTimed drv dur deadline roster).getD j
      (dummyOutcome, SessionState.acquired) = runOne drv (roster.get ⟨j, hj⟩) := by
    rw [List.getD_eq_getElem?_getD,
        List.getElem?_eq_getElem (by simpa [runBatchTimed] using hj)]
    simp only [runBatchTimed, List.getElem_map, Option.getD_some]
    have hfin2 : dur roster[j] ≤ deadline := hfin
    rw [if_pos hfin2]
    rfl
  exact ⟨hlen, hgeti, by rw [hgeti], hgetj⟩

/-- Witness for C6: the first account overruns a deadline of 2, the
second finishes in time. -/
theorem c6_timeout_cancellation_witness :
    2 < durDemo accA ∧ durDemo accB ≤ 2 ∧
    ((runBatchTimed okDrv durDemo 2 [accA, accB]).length =
        ([accA, accB] : List Account).length ∧
     (runBatchTimed okDrv durDemo 2 [accA, accB]).getD 0
         (dummyOutcome, SessionState.acquired) =
       ({ account := accA, status := .Failed
          reason := some "Timeout", retries := 0 }, SessionState.released) ∧
     ((runBatchTimed okDrv durDemo 2 [accA, accB]).getD 0
         (dummyOutcome, SessionState.acquired)).2 = SessionState.released ∧
     (runBatchTimed okDrv durDemo 2 [accA, accB]).getD 1
         (dummyOutcome, SessionState.acquired) = runOne okDrv accB) :=
  ⟨by decide, by decide,
   c6_timeout_cancellation okDrv durDemo 2 [accA, accB] 0 1 (by decide) (by decide)
     (by decide) (by decide)⟩

/-- C7: report generation is a pure, deterministic function of the
finalized RunSummary — equal summaries render equal reports, the rendered
report does not depend on any external state, the generation step of the
Result Reporter is exactly that pure function, and the full reporting
pass changes nothing in the environment beyond appending the rendered
report to the outgoing mail log. -/
theorem c7_report_pure (s1 s2 : RunSummary) (env env2 : Env) (h : s1 = s2) :
    renderReport s1 = renderReport s2 ∧
    (report s1 env).1 = (report s1 env2).1 ∧
    (report s1 env).1 = renderReport s1 ∧
    (report s1 env).2.network = env.network ∧
    (report s1 env).2.browser = env.browser ∧
    (report s1 env).2.mailLog = env.mailLog ++ [renderReport s1] := by
  subst h
  exact ⟨rfl, rfl, rfl, rfl, rfl, rfl⟩

/-- Witness for C7 on the summary of a concrete batch run. -/
theorem c7_report_pure_witness :
    runBatch okDrv [accA] = runBatch okDrv [accA] ∧
    (renderReport (runBatch okDrv [accA]) = renderReport (runBatch okDrv [accA]) ∧
     (report (runBatch okDrv [accA])
         { network := true, browser := true, mailLog := [] }).1 =
       (report (runBatch okDrv [accA])
         { network := false, browser := false, mailLog := ["old"] }).1 ∧
     (report (runBatch okDrv [accA])
         { network := true, browser := true, mailLog := [] }).1 =
       renderReport (runBatch okDrv [accA]) ∧
     (report (runBatch okDrv [accA])
         { network := true, browser := true, mailLog := [] }).2.network = true ∧
     (report (runBatch okDrv [accA])
         { network := true, browser := true, mailLog := [] }).2.browser = true ∧
     (report (runBatch okDrv [accA])
         { network := true, browser := true, mailLog := [] }).2.mailLog =
       [] ++ [renderReport (runBatch okDrv [accA])]) :=
  ⟨rfl, c7_report_pure (runBatch okDrv [accA]) (runBatch okDrv [accA])
    { network := true, browser := true, mailLog := [] }
    { network := false, browser := false, mailLog := ["old"] } rfl⟩

end Engine
